import Mathlib

/-!
# Thunderbots AI: the Dribble primitive protocol, the main loop and the Ball

A shallow embedding of

* `ai/primitive/dribble_primitive.cpp` (the two constructors, the accessors and the
  parameter / extra-bit encoders of `DribblePrimitive`),
* the body of the main loop of `ai/main.cpp`,
* the `Ball` operations exercised by `test/world/ball.cpp`,

followed by the properties established about them.

Conventions: a C++ exception is an `Except` error, a `std::vector` is a `List`,
`unsigned int` robot ids are natural numbers (no arithmetic is done on them), and a
`double` is carried by its IEEE-754 bit pattern, since the protocol only transports
doubles and converts one of them to `bool`.
-/

namespace Thunderbots

/-! ## Values carried by the protocol -/

/-- An IEEE-754 binary64 value, given by its bit pattern `bits % 2^64`
(bit 63 is the sign, bits 52..62 the exponent, bits 0..51 the fraction). -/
structure Double where
  bits : Nat
  deriving DecidableEq, Repr

/-- The C++ conversion `double -> bool`, that is `d != 0.0`: `false` exactly for `+0.0`
and `-0.0`, the two patterns whose 63 low bits are all clear; `true` for every other
value, infinities and NaNs included. -/
def Double.toBool (d : Double) : Bool :=
  (d.bits % 2 ^ 64) % 2 ^ 63 != 0

/-- Modelled from the spec: the class `Point` (`geom/point.h` is not among the sources),
an immutable pair of coordinates built by `Point(x, y)` and read by `x()` and `y()`. -/
structure Point where
  x : Double
  y : Double
  deriving DecidableEq, Repr

/-- Modelled from the spec: the class `Angle` (`geom/angle.h` is not among the sources),
an immutable angle held in radians. -/
structure Angle where
  rads : Double
  deriving DecidableEq, Repr

/-- The factory `Angle::ofRadians`. -/
def Angle.ofRadians (t : Double) : Angle := ⟨t⟩

/-- The accessor `Angle::toRadians`. -/
def Angle.toRadians (a : Angle) : Double := a.rads

/-- The wire message `thunderbots_msgs::Primitive`:
`{robot_id, primitive_name, parameters, extra_bits}`. -/
structure PrimitiveMsg where
  robot_id : Nat
  primitive_name : String
  parameters : List Double
  extra_bits : List Bool
  deriving DecidableEq, Repr

/-- The exceptions a message constructor can raise: the name-mismatch error of
`validatePrimitiveMessage` and the `std::out_of_range` of `std::vector::at`. -/
inductive Exception where
  | nameMismatch
  | outOfRange
  deriving DecidableEq, Repr

/-- The checked element access `std::vector::at`: the element at index `i`, or
`std::out_of_range` when `i` is not below the size. -/
def vectorAt {α : Type} (v : List α) (i : Nat) : Except Exception α :=
  match v[i]? with
  | some a => Except.ok a
  | none => Except.error Exception.outOfRange

/-- The sized constructor `std::vector<bool>(n)`: `n` value-initialised elements,
that is `n` copies of `false`. -/
def vectorBoolOfSize (n : Nat) : List Bool :=
  List.replicate n false

/-! ## `DribblePrimitive` (`ai/primitive/dribble_primitive.cpp`) -/

/-- The data members of `DribblePrimitive`. -/
structure DribblePrimitive where
  robot_id : Nat
  dest : Point
  final_orientation : Angle
  rpm : Double
  small_kick_allowed : Bool
  deriving DecidableEq, Repr

namespace DribblePrimitive

/-- The constant `DribblePrimitive::PRIMITIVE_NAME` (line 8). -/
def PRIMITIVE_NAME : String := "Dribble Primitive"

/-- The field constructor
`DribblePrimitive(robot_id, dest, orientation, rpm, small_kick_allowed)` (lines 10-14):
each argument initialises the member of the same role. -/
def ofFields (robot_id : Nat) (dest : Point) (orientation : Angle) (rpm : Double)
    (small_kick_allowed : Bool) : DribblePrimitive :=
  { robot_id := robot_id
    dest := dest
    final_orientation := orientation
    rpm := rpm
    small_kick_allowed := small_kick_allowed }

/-- The method `getPrimitiveName` (lines 30-33). -/
def getPrimitiveName (_self : DribblePrimitive) : String :=
  PRIMITIVE_NAME

/-- The method `getRobotId` (lines 35-38). -/
def getRobotId (self : DribblePrimitive) : Nat :=
  self.robot_id

/-- The method `getParameterArray` (lines 40-45). -/
def getParameterArray (self : DribblePrimitive) : List Double :=
  [self.dest.x, self.dest.y, self.final_orientation.toRadians, self.rpm]

/-- The method `getExtraBitArray` (lines 47-50): `std::vector<bool>(small_kick_allowed)`
is the sized constructor, the `bool` being converted to the element count 0 or 1. -/
def getExtraBitArray (self : DribblePrimitive) : List Bool :=
  vectorBoolOfSize self.small_kick_allowed.toNat

end DribblePrimitive

/-- Modelled from the spec: `Primitive::validatePrimitiveMessage` (`primitive.cpp` is not
among the sources): "fail with a name-mismatch error if
`primitiveName != variant.canonicalName()`", and nothing else. -/
def validatePrimitiveMessage (prim_msg : PrimitiveMsg) (prim_name : String) :
    Except Exception Unit :=
  if prim_msg.primitive_name != prim_name then
    Except.error Exception.nameMismatch
  else
    Except.ok ()

/-- The message constructor `DribblePrimitive(const thunderbots_msgs::Primitive&)`
(lines 16-27). An exception leaves no object behind, so the result is either the
constructed primitive or the exception. `getPrimitiveName()` on the object under
construction is `PRIMITIVE_NAME`. -/
def DribblePrimitive.ofMsg (primitive_msg : PrimitiveMsg) :
    Except Exception DribblePrimitive := do
  validatePrimitiveMessage primitive_msg DribblePrimitive.PRIMITIVE_NAME
  let robot_id := primitive_msg.robot_id
  let dest_x ← vectorAt primitive_msg.parameters 0
  let dest_y ← vectorAt primitive_msg.parameters 1
  let dest := Point.mk dest_x dest_y
  let final_orientation := Angle.ofRadians (← vectorAt primitive_msg.parameters 2)
  let rpm ← vectorAt primitive_msg.parameters 3
  let small_kick_allowed := (← vectorAt primitive_msg.parameters 4).toBool
  pure { robot_id := robot_id
         dest := dest
         final_orientation := final_orientation
         rpm := rpm
         small_kick_allowed := small_kick_allowed }

/-- Modelled from the spec: `Primitive::createMsg` (`primitive.cpp` is not among the
sources), instantiated at the Dribble variant: the wire message made of the robot id,
the variant's own name, `getParameterArray()` and `getExtraBitArray()`. -/
def DribblePrimitive.createMsg (self : DribblePrimitive) : PrimitiveMsg :=
  { robot_id := self.getRobotId
    primitive_name := self.getPrimitiveName
    parameters := self.getParameterArray
    extra_bits := self.getExtraBitArray }

/-! ## The main loop (`ai/main.cpp`, lines 89-113) -/

/-- The message `thunderbots_msgs::PrimitiveArray`: the list `primitives`. -/
structure PrimitiveArray where
  primitives : List PrimitiveMsg
  deriving DecidableEq, Repr

/-- What the loop body calls outside `main.cpp`, for a type `AI` of orchestrator states
and a type `Prim` of primitives: the callbacks run by `ros::spinOnce()` (they update the
AI), `AI::getPrimitives` (it may update the AI and returns the assigned primitives) and
the virtual method `Primitive::createMsg`. -/
structure LoopEnv (AI Prim : Type) where
  spinOnce : AI → AI
  getPrimitives : AI → Int → AI × List Prim
  createMsg : Prim → PrimitiveMsg

/-- The state one loop iteration acts on: the file-scoped `ai`, the messages handed to
`primitive_publisher` so far and the messages streamed to `std::cout` so far (oldest
first in both). -/
structure LoopState (AI : Type) where
  ai : AI
  published : List PrimitiveArray
  cout : List PrimitiveMsg

/-- One pass of the range-for of lines 106-111: encode `prim`, append the message to
`primitive_array_message.primitives` and stream it to `std::cout`. -/
def encodeStep {Prim : Type} (createMsg : Prim → PrimitiveMsg)
    (acc : PrimitiveArray × List PrimitiveMsg) (prim : Prim) :
    PrimitiveArray × List PrimitiveMsg :=
  let msg := createMsg prim
  ({ primitives := acc.1.primitives ++ [msg] }, acc.2 ++ [msg])

/-- The body of the `while (ros::ok())` loop (lines 91-112), `timestamp` being the value
read from `Timestamp::getTimestampNow()`. -/
def mainLoopBody {AI Prim : Type} (env : LoopEnv AI Prim) (timestamp : Int)
    (s : LoopState AI) : LoopState AI :=
  let ai₁ := env.spinOnce s.ai
  let r := env.getPrimitives ai₁ timestamp
  let assignedPrimitives := r.2
  let filled :=
    assignedPrimitives.foldl (encodeStep env.createMsg)
      (({ primitives := [] } : PrimitiveArray), s.cout)
  { ai := r.1
    published := s.published ++ [filled.1]
    cout := filled.2 }

/-! ## The Ball (exercised by `test/world/ball.cpp`) -/

/-- Modelled from the spec: the class `Ball` (`ai/world/ball.cpp` is not among the
sources; only its test is), "{position: Point, velocity: Vector, lastUpdateTimestamp:
Timestamp}". The types of positions and velocities are parameters; a timestamp is a
count of clock ticks. -/
structure Ball (P V : Type) where
  position : P
  velocity : V
  lastUpdateTimestamp : Int

/-- Modelled from the spec: the motion model behind the two `estimate*` queries of the
absent `Ball`. Its closed form (`v(t) = v0 * e^(k*t)`,
`position(t) = position + v0 * (1 - e^(k*t)) / (-k)`) is floating-point arithmetic with
a calibrated constant, so it is a parameter: the predicted position as a function of
the stored position, the stored velocity and the elapsed duration, and the predicted
velocity as a function of the stored velocity and the elapsed duration. -/
structure MotionModel (P V : Type) where
  positionAfter : P → V → Int → P
  velocityAfter : V → Int → V

namespace Ball

variable {P V : Type}

/-- Modelled from the spec: `Ball::updateState(position, velocity, timestamp)`,
"unconditional overwrite of all three fields". -/
def updateState (_self : Ball P V) (new_position : P) (new_velocity : V)
    (timestamp : Int) : Ball P V :=
  { position := new_position
    velocity := new_velocity
    lastUpdateTimestamp := timestamp }

/-- Modelled from the spec: `Ball::estimatePositionAtFutureTime(duration)`, a
"pure, non-mutating" query on the current stored state. -/
def estimatePositionAtFutureTime (m : MotionModel P V) (self : Ball P V)
    (duration : Int) : P :=
  m.positionAfter self.position self.velocity duration

/-- Modelled from the spec: `Ball::estimateVelocityAtFutureTime(duration)`, a
"pure, non-mutating" query on the current stored state. -/
def estimateVelocityAtFutureTime (m : MotionModel P V) (self : Ball P V)
    (duration : Int) : V :=
  m.velocityAfter self.velocity duration

/-- Modelled from the spec: `Ball::updateStateToPredictedState(futureTimestamp)`:
"computes `elapsed = futureTimestamp - lastUpdateTimestamp`, sets
`position = estimatePositionAtFutureTime(elapsed)`,
`velocity = estimateVelocityAtFutureTime(elapsed)` (both evaluated against the state
before mutation), then `lastUpdateTimestamp = futureTimestamp`". A timestamp in the
past is not handled by the reference, so none is rejected here. -/
def updateStateToPredictedState (m : MotionModel P V) (self : Ball P V)
    (futureTimestamp : Int) : Ball P V :=
  let elapsed := futureTimestamp - self.lastUpdateTimestamp
  let new_position := self.estimatePositionAtFutureTime m elapsed
  let new_velocity := self.estimateVelocityAtFutureTime m elapsed
  self.updateState new_position new_velocity futureTimestamp

end Ball

/-- The linear motion model over the rationals, `position + velocity * seconds` with an
undamped velocity (a duration is a count of milliseconds): the instance the Ball
property is evaluated at. -/
def linearModel : MotionModel (ℚ × ℚ) (ℚ × ℚ) where
  positionAfter := fun p v d => (p.1 + v.1 * d / 1000, p.2 + v.2 * d / 1000)
  velocityAfter := fun v _ => v

/-! ## Concrete inputs the properties are evaluated at -/

/-- The message the flag-blindness of the decoder is evaluated at: robot 2, the right
name, four parameters `+0.0` followed by `fifth`, and the flag list `extra_bits`. -/
def probeMsg (fifth : Double) (extra_bits : List Bool) : PrimitiveMsg :=
  { robot_id := 2
    primitive_name := "Dribble Primitive"
    parameters := [⟨0⟩, ⟨0⟩, ⟨0⟩, ⟨0⟩, fifth]
    extra_bits := extra_bits }

/-- The primitive `probeMsg` decodes to when its fifth parameter converts to
`small_kick_allowed`. -/
def probePrimitive (small_kick_allowed : Bool) : DribblePrimitive :=
  { robot_id := 2
    dest := ⟨⟨0⟩, ⟨0⟩⟩
    final_orientation := Angle.ofRadians ⟨0⟩
    rpm := ⟨0⟩
    small_kick_allowed := small_kick_allowed }

/-- The environment the dispatch property is evaluated at: no orchestrator state, and a
`getPrimitives` that assigns two Dribble primitives, to robots 0 and 1. -/
def twoDribbles : LoopEnv Unit DribblePrimitive where
  spinOnce := fun u => u
  getPrimitives := fun u _ =>
    (u, [DribblePrimitive.ofFields 0 ⟨⟨0⟩, ⟨0⟩⟩ (Angle.ofRadians ⟨0⟩) ⟨0⟩ true,
         DribblePrimitive.ofFields 1 ⟨⟨0⟩, ⟨0⟩⟩ (Angle.ofRadians ⟨0⟩) ⟨0⟩ false])
  createMsg := DribblePrimitive.createMsg

/-! ## Helper lemmas -/

/-- The range-for of the main loop appends the encodings of the primitives, in order,
to both accumulators. -/
theorem foldl_encodeStep {Prim : Type} (createMsg : Prim → PrimitiveMsg)
    (prims : List Prim) (acc : PrimitiveArray × List PrimitiveMsg) :
    prims.foldl (encodeStep createMsg) acc =
      ({ primitives := acc.1.primitives ++ prims.map createMsg },
        acc.2 ++ prims.map createMsg) := by
  induction prims generalizing acc with
  | nil => simp
  | cons p ps ih => simp [List.foldl_cons, ih, encodeStep]

/-- The message constructor on a message carrying the right name and at least five
parameters. -/
theorem ofMsg_of_five (id : Nat) (a b c d e : Double) (rest : List Double)
    (flags : List Bool) :
    DribblePrimitive.ofMsg
        { robot_id := id, primitive_name := DribblePrimitive.PRIMITIVE_NAME,
          parameters := a :: b :: c :: d :: e :: rest, extra_bits := flags } =
      Except.ok
        { robot_id := id, dest := ⟨a, b⟩, final_orientation := Angle.ofRadians c,
          rpm := d, small_kick_allowed := e.toBool } := by
  simp [DribblePrimitive.ofMsg, validatePrimitiveMessage, vectorAt, bind, Except.bind,
    pure, Except.pure]

/-- The message constructor on a message carrying the right name and fewer than five
parameters. -/
theorem ofMsg_of_short (m : PrimitiveMsg)
    (hn : m.primitive_name = DribblePrimitive.PRIMITIVE_NAME)
    (hl : m.parameters.length < 5) :
    DribblePrimitive.ofMsg m = Except.error Exception.outOfRange := by
  obtain ⟨id, name, ps, fs⟩ := m
  simp only at hn hl
  subst hn
  match ps, hl with
  | [], _ => simp [DribblePrimitive.ofMsg, validatePrimitiveMessage, vectorAt, bind,
      Except.bind]
  | [_], _ => simp [DribblePrimitive.ofMsg, validatePrimitiveMessage, vectorAt, bind,
      Except.bind]
  | [_, _], _ => simp [DribblePrimitive.ofMsg, validatePrimitiveMessage, vectorAt, bind,
      Except.bind]
  | [_, _, _], _ => simp [DribblePrimitive.ofMsg, validatePrimitiveMessage, vectorAt,
      bind, Except.bind]
  | [_, _, _, _], _ => simp [DribblePrimitive.ofMsg, validatePrimitiveMessage, vectorAt,
      bind, Except.bind]
  | _ :: _ :: _ :: _ :: _ :: _, h => simp at h; omega

/-- The message constructor on a message carrying another name. -/
theorem ofMsg_of_wrong_name (m : PrimitiveMsg)
    (hn : m.primitive_name ≠ DribblePrimitive.PRIMITIVE_NAME) :
    DribblePrimitive.ofMsg m = Except.error Exception.nameMismatch := by
  simp [DribblePrimitive.ofMsg, validatePrimitiveMessage, hn, bind, Except.bind]

/-- The message constructor succeeds exactly on the messages that carry the right name
and at least five parameters, and then reads everything from the robot id and the first
five parameters. -/
theorem ofMsg_eq_ok_iff (m : PrimitiveMsg) (p : DribblePrimitive) :
    DribblePrimitive.ofMsg m = Except.ok p ↔
      m.primitive_name = DribblePrimitive.PRIMITIVE_NAME ∧
      ∃ a b c d e rest, m.parameters = a :: b :: c :: d :: e :: rest ∧
        p = { robot_id := m.robot_id, dest := ⟨a, b⟩,
              final_orientation := Angle.ofRadians c, rpm := d,
              small_kick_allowed := e.toBool } := by
  constructor
  · intro h
    by_cases hn : m.primitive_name = DribblePrimitive.PRIMITIVE_NAME
    · refine ⟨hn, ?_⟩
      by_cases hl : m.parameters.length < 5
      · rw [ofMsg_of_short m hn hl] at h
        cases h
      · obtain ⟨id, name, ps, fs⟩ := m
        simp only at hn hl
        subst hn
        match ps, hl with
        | [], hl => simp at hl
        | [_], hl => simp at hl
        | [_, _], hl => simp at hl
        | [_, _, _], hl => simp at hl
        | [_, _, _, _], hl => simp at hl
        | a :: b :: c :: d :: e :: rest, _ =>
          rw [ofMsg_of_five] at h
          injection h with h
          exact ⟨a, b, c, d, e, rest, rfl, h.symm⟩
    · rw [ofMsg_of_wrong_name m hn] at h
      cases h
  · rintro ⟨hn, a, b, c, d, e, rest, hp, rfl⟩
    obtain ⟨id, name, ps, fs⟩ := m
    simp only at hn hp
    subst hn hp
    exact ofMsg_of_five id a b c d e rest fs

/-! ## The Dribble encoders -/

/-- C4 (Dribble parameter encoding). For a primitive built by the field constructor from
`(robot_id, dest, orientation, rpm, small_kick_allowed)`, `getRobotId()` is `robot_id`
and `getParameterArray()` is the list `[dest.x, dest.y, orientation in radians, rpm]`,
of length 4, the same whatever `small_kick_allowed` is. -/
theorem dribble_parameter_encoding (robot_id : Nat) (dest : Point) (orientation : Angle)
    (rpm : Double) (small_kick_allowed : Bool) :
    (DribblePrimitive.ofFields robot_id dest orientation rpm
        small_kick_allowed).getRobotId = robot_id ∧
    (DribblePrimitive.ofFields robot_id dest orientation rpm
        small_kick_allowed).getParameterArray =
      [dest.x, dest.y, orientation.toRadians, rpm] ∧
    (DribblePrimitive.ofFields robot_id dest orientation rpm
        small_kick_allowed).getParameterArray.length = 4 ∧
    ∀ other : Bool,
      (DribblePrimitive.ofFields robot_id dest orientation rpm other).getParameterArray =
        (DribblePrimitive.ofFields robot_id dest orientation rpm
          small_kick_allowed).getParameterArray := by
  refine ⟨rfl, rfl, rfl, fun _ => rfl⟩

/-- C9 (the emitted flag list never contains `true`). For every Dribble primitive,
`getExtraBitArray()` is the empty list when `small_kick_allowed` is false and the list
`[false]` when it is true; `true` is never an element of it. -/
theorem dribble_extra_bits_never_true (p : DribblePrimitive) :
    p.getExtraBitArray = (if p.small_kick_allowed then [false] else []) ∧
    true ∉ p.getExtraBitArray := by
  obtain ⟨id, dest, o, rpm, k⟩ := p
  cases k <;>
    simp [DribblePrimitive.getExtraBitArray, vectorBoolOfSize]

/-- C3 (Dribble flag encoding), evaluated on the code: the primitive that allows small
kicks emits `[false]`, not `[true]`, and the primitive that forbids them emits the empty
list, not a one-element list. -/
theorem dribble_flag_encoding_diverges :
    (DribblePrimitive.ofFields 0 ⟨⟨0⟩, ⟨0⟩⟩ (Angle.ofRadians ⟨0⟩) ⟨0⟩
        true).getExtraBitArray = [false] ∧
    (DribblePrimitive.ofFields 0 ⟨⟨0⟩, ⟨0⟩⟩ (Angle.ofRadians ⟨0⟩) ⟨0⟩
        false).getExtraBitArray = [] := by
  constructor <;> rfl

/-! ## The Dribble decoder -/

/-- C2 (positional decode of Dribble), evaluated on the code: a message with the right
name, exactly four parameters and one flag is rejected with a range error; and a message
with five parameters and the flag list `[true]` decodes to a primitive whose
`small_kick_allowed` is false, the conversion of its fifth parameter `+0.0`. -/
theorem dribble_positional_decode_diverges :
    DribblePrimitive.ofMsg
        { robot_id := 3, primitive_name := "Dribble Primitive",
          parameters := [⟨0⟩, ⟨0⟩, ⟨0⟩, ⟨0⟩], extra_bits := [true] } =
      Except.error Exception.outOfRange ∧
    DribblePrimitive.ofMsg
        { robot_id := 3, primitive_name := "Dribble Primitive",
          parameters := [⟨0⟩, ⟨0⟩, ⟨0⟩, ⟨0⟩, ⟨0⟩], extra_bits := [true] } =
      Except.ok
        { robot_id := 3, dest := ⟨⟨0⟩, ⟨0⟩⟩, final_orientation := Angle.ofRadians ⟨0⟩,
          rpm := ⟨0⟩, small_kick_allowed := false } := by
  constructor
  · exact ofMsg_of_short _ rfl (by decide)
  · exact ofMsg_of_five 3 ⟨0⟩ ⟨0⟩ ⟨0⟩ ⟨0⟩ ⟨0⟩ [] [true]

/-- C5 (InsufficientData rejection for Dribble), evaluated on the code: a message with
the right name, five parameters and no flag at all is accepted. -/
theorem dribble_zero_flags_accepted :
    DribblePrimitive.ofMsg
        { robot_id := 3, primitive_name := "Dribble Primitive",
          parameters := [⟨0⟩, ⟨0⟩, ⟨0⟩, ⟨0⟩, ⟨0x3FF0000000000000⟩], extra_bits := [] } =
      Except.ok
        { robot_id := 3, dest := ⟨⟨0⟩, ⟨0⟩⟩, final_orientation := Angle.ofRadians ⟨0⟩,
          rpm := ⟨0⟩, small_kick_allowed := true } := by
  exact ofMsg_of_five 3 ⟨0⟩ ⟨0⟩ ⟨0⟩ ⟨0⟩ ⟨0x3FF0000000000000⟩ [] []

/-- C6 (NameMismatch rejection for Dribble). A message whose name is not
`"Dribble Primitive"` is rejected with the name-mismatch error whatever its robot id,
parameters and flags are (also when it has no parameter at all, where reading one would
have raised a range error instead), so no primitive is produced; and
`getPrimitiveName()` is that constant on every instance. -/
theorem dribble_name_mismatch (name : String) (h : name ≠ "Dribble Primitive") :
    (∀ (robot_id : Nat) (parameters : List Double) (extra_bits : List Bool),
      DribblePrimitive.ofMsg
          { robot_id := robot_id, primitive_name := name, parameters := parameters,
            extra_bits := extra_bits } =
        Except.error Exception.nameMismatch ∧
      ∀ p : DribblePrimitive,
        DribblePrimitive.ofMsg
            { robot_id := robot_id, primitive_name := name, parameters := parameters,
              extra_bits := extra_bits } ≠
          Except.ok p) ∧
    ∀ p : DribblePrimitive, p.getPrimitiveName = "Dribble Primitive" := by
  refine ⟨fun robot_id parameters extra_bits => ?_, fun _ => rfl⟩
  have he := ofMsg_of_wrong_name
    { robot_id := robot_id, primitive_name := name, parameters := parameters,
      extra_bits := extra_bits } h
  refine ⟨he, fun p hp => ?_⟩
  rw [he] at hp
  cases hp

/-- The name-mismatch rejection at the name `"Kick Primitive"`. -/
theorem dribble_name_mismatch_witness :
    "Kick Primitive" ≠ "Dribble Primitive" ∧
    ((∀ (robot_id : Nat) (parameters : List Double) (extra_bits : List Bool),
      DribblePrimitive.ofMsg
          { robot_id := robot_id, primitive_name := "Kick Primitive",
            parameters := parameters, extra_bits := extra_bits } =
        Except.error Exception.nameMismatch ∧
      ∀ p : DribblePrimitive,
        DribblePrimitive.ofMsg
            { robot_id := robot_id, primitive_name := "Kick Primitive",
              parameters := parameters, extra_bits := extra_bits } ≠
          Except.ok p) ∧
    ∀ p : DribblePrimitive, p.getPrimitiveName = "Dribble Primitive") :=
  ⟨by decide, dribble_name_mismatch "Kick Primitive" (by decide)⟩

/-- C10 (Dribble decoding ignores the wire flags). Two messages that agree on robot id,
name and parameters have the same decoding result, whatever their flag lists are: both
fail, or both succeed with the same primitive. When decoding succeeds there is a fifth
parameter `parameters[4]`, `small_kick_allowed` is its conversion to `bool`, and it is
true exactly when that double is non-zero, that is when the 63 bits below the sign bit
of its pattern are not all clear (so it is false for `+0.0` and `-0.0` only); a message
with fewer than five parameters is never decoded. -/
theorem dribble_decode_ignores_flags (m₁ m₂ : PrimitiveMsg)
    (hid : m₁.robot_id = m₂.robot_id)
    (hname : m₁.primitive_name = m₂.primitive_name)
    (hparams : m₁.parameters = m₂.parameters) :
    DribblePrimitive.ofMsg m₁ = DribblePrimitive.ofMsg m₂ ∧
    (∀ p : DribblePrimitive, DribblePrimitive.ofMsg m₁ = Except.ok p →
      ∃ d : Double, m₁.parameters[4]? = some d ∧ p.small_kick_allowed = d.toBool ∧
        (p.small_kick_allowed = true ↔ d.bits % 2 ^ 64 % 2 ^ 63 ≠ 0)) ∧
    (m₁.parameters.length < 5 →
      ∀ p : DribblePrimitive, DribblePrimitive.ofMsg m₁ ≠ Except.ok p) := by
  refine ⟨?_, ?_, ?_⟩
  · obtain ⟨id₁, name₁, ps₁, fs₁⟩ := m₁
    obtain ⟨id₂, name₂, ps₂, fs₂⟩ := m₂
    simp only at hid hname hparams
    subst hid hname hparams
    rfl
  · intro p hp
    obtain ⟨_, a, b, c, d, e, rest, hps, rfl⟩ := (ofMsg_eq_ok_iff m₁ p).mp hp
    refine ⟨e, by simp [hps], rfl, ?_⟩
    show e.toBool = true ↔ e.bits % 2 ^ 64 % 2 ^ 63 ≠ 0
    unfold Double.toBool
    exact bne_iff_ne
  · intro hl p hp
    obtain ⟨_, a, b, c, d, e, rest, hps, _⟩ := (ofMsg_eq_ok_iff m₁ p).mp hp
    rw [hps] at hl
    simp only [List.length_cons] at hl
    omega

/-- The flag-blindness of the decoder at two pairs of messages that differ in their flag
lists only. With the fifth parameter `1.0` (pattern `0x3FF0000000000000`) the flag lists
`[false]` and `[true, true]` both decode to `small_kick_allowed = true`, a value that is
non-zero on its bits. With the fifth parameter `-0.0` (pattern `0x8000000000000000`) the
flag lists `[true]` and `[]` both decode to `small_kick_allowed = false`, a value that is
zero on its bits. -/
theorem dribble_decode_ignores_flags_witness :
    (DribblePrimitive.ofMsg (probeMsg ⟨0x3FF0000000000000⟩ [false]) =
        DribblePrimitive.ofMsg (probeMsg ⟨0x3FF0000000000000⟩ [true, true]) ∧
      DribblePrimitive.ofMsg (probeMsg ⟨0x3FF0000000000000⟩ [false]) =
        Except.ok (probePrimitive true) ∧
      ∃ d : Double, (probeMsg ⟨0x3FF0000000000000⟩ [false]).parameters[4]? = some d ∧
        (probePrimitive true).small_kick_allowed = d.toBool ∧
        ((probePrimitive true).small_kick_allowed = true ↔
          d.bits % 2 ^ 64 % 2 ^ 63 ≠ 0)) ∧
    (DribblePrimitive.ofMsg (probeMsg ⟨0x8000000000000000⟩ [true]) =
        DribblePrimitive.ofMsg (probeMsg ⟨0x8000000000000000⟩ []) ∧
      DribblePrimitive.ofMsg (probeMsg ⟨0x8000000000000000⟩ [true]) =
        Except.ok (probePrimitive false) ∧
      ∃ d : Double, (probeMsg ⟨0x8000000000000000⟩ [true]).parameters[4]? = some d ∧
        (probePrimitive false).small_kick_allowed = d.toBool ∧
        ((probePrimitive false).small_kick_allowed = true ↔
          d.bits % 2 ^ 64 % 2 ^ 63 ≠ 0)) ∧
    (0x3FF0000000000000 % 2 ^ 64 % 2 ^ 63 ≠ 0 ∧ 0x8000000000000000 % 2 ^ 64 % 2 ^ 63 = 0) :=
  ⟨⟨(dribble_decode_ignores_flags (probeMsg ⟨0x3FF0000000000000⟩ [false])
        (probeMsg ⟨0x3FF0000000000000⟩ [true, true]) rfl rfl rfl).1,
      ofMsg_of_five 2 ⟨0⟩ ⟨0⟩ ⟨0⟩ ⟨0⟩ ⟨0x3FF0000000000000⟩ [] [false],
      (dribble_decode_ignores_flags (probeMsg ⟨0x3FF0000000000000⟩ [false])
        (probeMsg ⟨0x3FF0000000000000⟩ [true, true]) rfl rfl rfl).2.1
        (probePrimitive true)
        (ofMsg_of_five 2 ⟨0⟩ ⟨0⟩ ⟨0⟩ ⟨0⟩ ⟨0x3FF0000000000000⟩ [] [false])⟩,
    ⟨(dribble_decode_ignores_flags (probeMsg ⟨0x8000000000000000⟩ [true])
        (probeMsg ⟨0x8000000000000000⟩ []) rfl rfl rfl).1,
      ofMsg_of_five 2 ⟨0⟩ ⟨0⟩ ⟨0⟩ ⟨0⟩ ⟨0x8000000000000000⟩ [] [true],
      (dribble_decode_ignores_flags (probeMsg ⟨0x8000000000000000⟩ [true])
        (probeMsg ⟨0x8000000000000000⟩ []) rfl rfl rfl).2.1
        (probePrimitive false)
        (ofMsg_of_five 2 ⟨0⟩ ⟨0⟩ ⟨0⟩ ⟨0⟩ ⟨0x8000000000000000⟩ [] [true])⟩,
    ⟨by decide, by decide⟩⟩

/-- C1 (round trip for the Dribble variant), evaluated on the code: for every robot id,
destination, final orientation, rpm and `small_kick_allowed`, decoding the encoding of
the primitive built by the field constructor raises a range error, because the encoder
emits four parameters and the decoder reads a fifth. No primitive comes back. -/
theorem dribble_round_trip_fails (robot_id : Nat) (dest : Point) (orientation : Angle)
    (rpm : Double) (small_kick_allowed : Bool) :
    DribblePrimitive.ofMsg
        (DribblePrimitive.ofFields robot_id dest orientation rpm
          small_kick_allowed).createMsg =
      Except.error Exception.outOfRange :=
  ofMsg_of_short _ rfl (by simp [DribblePrimitive.createMsg,
    DribblePrimitive.getParameterArray])

/-! ## The main loop -/

/-- C7 (per-tick dispatch). One iteration of the main loop publishes exactly one more
`PrimitiveArray`; for the list of primitives returned by its `getPrimitives` call, that
array holds the encodings of those primitives in the same order: it has as many entries
as the list, its `i`-th entry is `createMsg` of the `i`-th primitive, and it is the empty
array when the list is empty. -/
theorem main_loop_dispatch {AI Prim : Type} (env : LoopEnv AI Prim) (timestamp : Int)
    (s : LoopState AI) (prims : List Prim)
    (h : (env.getPrimitives (env.spinOnce s.ai) timestamp).2 = prims) :
    ∃ arr : PrimitiveArray,
      (mainLoopBody env timestamp s).published = s.published ++ [arr] ∧
      arr.primitives = prims.map env.createMsg ∧
      arr.primitives.length = prims.length ∧
      (∀ i : Nat, arr.primitives[i]? = (prims[i]?).map env.createMsg) ∧
      (prims = [] → arr = { primitives := [] }) := by
  refine ⟨{ primitives := prims.map env.createMsg }, ?_, rfl, by simp, ?_, ?_⟩
  · simp [mainLoopBody, foldl_encodeStep, h]
  · intro i
    simp [List.getElem?_map]
  · rintro rfl
    rfl

/-- The dispatch property at `twoDribbles`, from the state where nothing has been
published yet. -/
theorem main_loop_dispatch_witness :
    (twoDribbles.getPrimitives (twoDribbles.spinOnce ()) 10000).2 =
      [DribblePrimitive.ofFields 0 ⟨⟨0⟩, ⟨0⟩⟩ (Angle.ofRadians ⟨0⟩) ⟨0⟩ true,
       DribblePrimitive.ofFields 1 ⟨⟨0⟩, ⟨0⟩⟩ (Angle.ofRadians ⟨0⟩) ⟨0⟩ false] ∧
    ∃ arr : PrimitiveArray,
      (mainLoopBody twoDribbles 10000
          { ai := (), published := [], cout := [] }).published = [] ++ [arr] ∧
      arr.primitives =
        [DribblePrimitive.ofFields 0 ⟨⟨0⟩, ⟨0⟩⟩ (Angle.ofRadians ⟨0⟩) ⟨0⟩ true,
         DribblePrimitive.ofFields 1 ⟨⟨0⟩, ⟨0⟩⟩ (Angle.ofRadians ⟨0⟩) ⟨0⟩ false].map
          twoDribbles.createMsg ∧
      arr.primitives.length = 2 :=
  ⟨rfl,
    (main_loop_dispatch twoDribbles 10000 { ai := (), published := [], cout := [] }
      _ rfl).imp fun _ hx => ⟨hx.1, hx.2.1, hx.2.2.1⟩⟩

/-! ## The Ball -/

/-- C8 (Ball mutation consistency). For every ball state and every timestamp `t` not
before the ball's `lastUpdateTimestamp`, after `updateStateToPredictedState(t)` the
position is what `estimatePositionAtFutureTime(t - oldTimestamp)` returned on the state
before the call, the velocity is what `estimateVelocityAtFutureTime(t - oldTimestamp)`
returned on that state, and `lastUpdateTimestamp` is `t`. -/
theorem ball_mutation_consistency {P V : Type} (m : MotionModel P V) (b : Ball P V)
    (t : Int) (_h : b.lastUpdateTimestamp ≤ t) :
    (b.updateStateToPredictedState m t).position =
      b.estimatePositionAtFutureTime m (t - b.lastUpdateTimestamp) ∧
    (b.updateStateToPredictedState m t).velocity =
      b.estimateVelocityAtFutureTime m (t - b.lastUpdateTimestamp) ∧
    (b.updateStateToPredictedState m t).lastUpdateTimestamp = t :=
  ⟨rfl, rfl, rfl⟩

/-- The mutation consistency of the ball of the test
`update_state_to_predicted_state_with_future_timestamp`, at position `(3, 7)` with
velocity `(-4.5, -0.12)` at the instant 10000 s, advanced by one second under the
linear model: it arrives at `(-1.5, 6.88)`. -/
theorem ball_mutation_consistency_witness :
    (10000000 : Int) ≤ 10001000 ∧
    ((Ball.mk ((3 : ℚ), (7 : ℚ)) ((-9 / 2 : ℚ), (-3 / 25 : ℚ))
        10000000).updateStateToPredictedState linearModel 10001000).position =
      (Ball.mk ((3 : ℚ), (7 : ℚ)) ((-9 / 2 : ℚ), (-3 / 25 : ℚ))
        10000000).estimatePositionAtFutureTime linearModel (10001000 - 10000000) ∧
    (Ball.mk ((3 : ℚ), (7 : ℚ)) ((-9 / 2 : ℚ), (-3 / 25 : ℚ))
        10000000).estimatePositionAtFutureTime linearModel (10001000 - 10000000) =
      ((-3 / 2 : ℚ), (172 / 25 : ℚ)) ∧
    ((Ball.mk ((3 : ℚ), (7 : ℚ)) ((-9 / 2 : ℚ), (-3 / 25 : ℚ))
        10000000).updateStateToPredictedState linearModel 10001000).lastUpdateTimestamp =
      10001000 :=
  ⟨by decide,
    (ball_mutation_consistency linearModel
      (Ball.mk ((3 : ℚ), (7 : ℚ)) ((-9 / 2 : ℚ), (-3 / 25 : ℚ)) 10000000)
      10001000 (by decide)).1,
    by norm_num [Ball.estimatePositionAtFutureTime, linearModel],
    (ball_mutation_consistency linearModel
      (Ball.mk ((3 : ℚ), (7 : ℚ)) ((-9 / 2 : ℚ), (-3 / 25 : ℚ)) 10000000)
      10001000 (by decide)).2.2⟩

end Thunderbots
